import Mathlib

/-!
# Verification of the TicTacToe front-end (src/frontend/src/App.js)

A shallow embedding of the single React component of the repository: the
state variables declared with useState become the fields of `AppState`;
each async operation (`updateGameState`, `connectWallet`, `joinGame`,
`makeMove`, `addMonadNetwork`, the `init` effect body) becomes a state
transformer taking the outcome of its awaited external calls as an
explicit argument.  An operation that toggles the `loading` flag is
embedded as a run producing the list of intermediate states (the trace)
together with the final state, so that properties about the flag holding
"for the whole duration" are statements about every state of the trace.
The useEffect subscription lifecycle is embedded separately as
`EffectState` with React's closure-capture semantics made explicit.
-/

namespace TicTacToe

/-- A cell of the rendered board.  The source keeps the contract's code 0
for an empty cell and the strings X and O otherwise
(`cell === 0 ? 0 : cell === 1 ? 'X' : 'O'`, App.js line 79). -/
inductive Cell where
  | Empty
  | X
  | O
deriving DecidableEq, Repr

/-- The rendered current turn (`turn === 0 ? 'X' : 'O'`, App.js line 80). -/
inductive Turn where
  | X
  | O
deriving DecidableEq, Repr

/-- The rendered game phase
(`state === 0 ? 'waiting' : state === 1 ? 'playing' : 'completed'`,
App.js line 81). -/
inductive Phase where
  | Waiting
  | Playing
  | Completed
deriving DecidableEq, Repr

/-- A thrown JavaScript error, reduced to the only field the component
reads from it: `err.message`. -/
structure JsError where
  message : String
deriving DecidableEq, Repr

/-- The component's useState variables (App.js lines 7 to 14), except
`contract`, whose lifecycle is embedded separately as `EffectState`. -/
structure AppState where
  account : Option String
  board : List (List Cell)
  gameState : Phase
  currentTurn : Turn
  loading : Bool
  message : String
  stakeAmount : String
deriving DecidableEq, Repr

/-- The initial values of the useState variables (App.js lines 8 to 14). -/
def initialState : AppState :=
  { account := none
    board := List.replicate 3 (List.replicate 3 Cell.Empty)
    gameState := Phase.Waiting
    currentTurn := Turn.X
    loading := false
    message := "Connect your wallet to play"
    stakeAmount := "0" }

/-- The GameView of the spec: the three fields of `AppState` that render
the game (board, currentTurn, gameState). -/
def gameView (s : AppState) : List (List Cell) × Turn × Phase :=
  (s.board, s.currentTurn, s.gameState)

/-- `pat` starts the list `s` (character-for-character). -/
def startsWithList : List Char → List Char → Bool
  | _, [] => true
  | [], _ :: _ => false
  | a :: as, b :: bs => (a = b) && startsWithList as bs

/-- `pat` occurs contiguously inside `s`. -/
def containsList (s pat : List Char) : Bool :=
  match s with
  | [] => pat.isEmpty
  | _ :: rest => startsWithList s pat || containsList rest pat

/-- JavaScript's `String.prototype.includes`: substring containment,
used by the source as `err.message.includes(...)`. -/
def includes (s pat : String) : Bool :=
  containsList s.data pat.data

/-- Projection of one contract cell code (App.js line 79):
`cell === 0 ? 0 : cell === 1 ? 'X' : 'O'`. -/
def projCell (cell : Int) : Cell :=
  if cell = 0 then Cell.Empty else if cell = 1 then Cell.X else Cell.O

/-- Projection of the contract turn code (App.js line 80):
`turn === 0 ? 'X' : 'O'`. -/
def projTurn (turn : Int) : Turn :=
  if turn = 0 then Turn.X else Turn.O

/-- Projection of the contract game-state code (App.js line 81):
`state === 0 ? 'waiting' : state === 1 ? 'playing' : 'completed'`. -/
def projPhase (state : Int) : Phase :=
  if state = 0 then Phase.Waiting else if state = 1 then Phase.Playing
  else Phase.Completed

/-- The result of one awaited external call: the value, or the thrown
error the `catch` block receives. -/
abbrev Outcome (α : Type) := Except JsError α

/-- `Promise.all` over the three contract reads of `updateGameState`
(App.js lines 73 to 77): all three values, or the error of a rejected
read.  When a read rejects, the awaited Promise.all rejects and none of
the code after the `await` runs. -/
def promiseAll3 (a : Outcome (List (List Int))) (b : Outcome Int)
    (c : Outcome Int) : Outcome (List (List Int) × Int × Int) :=
  match a, b, c with
  | .ok x, .ok y, .ok z => .ok (x, y, z)
  | .error e, _, _ => .error e
  | .ok _, .error e, _ => .error e
  | .ok _, .ok _, .error e => .error e

/-- `updateGameState` (App.js lines 71 to 85): on a successful triple
read it sets board, currentTurn and gameState from the projections; on a
rejected read the `catch` sets only the message. -/
def updateGameState (s : AppState)
    (reads : Outcome (List (List Int) × Int × Int)) : AppState :=
  match reads with
  | .ok (boardState, turn, state) =>
      { s with
        board := boardState.map (fun row => row.map (fun cell => projCell cell))
        currentTurn := projTurn turn
        gameState := projPhase state }
  | .error err => { s with message := err.message }

/-- A run of an operation that toggles `loading`: the intermediate states
reached while the operation is in flight, and the state after its
`finally` block. -/
structure OpRun where
  trace : List AppState
  final : AppState
deriving Repr

/-- `connectWallet` (App.js lines 87 to 99): sets loading, requests the
accounts; on success stores the first account and a success message, on
failure sets the error's message; `finally` clears loading. -/
def connectWallet (s : AppState) (request : Outcome String) : OpRun :=
  let s1 := { s with loading := true }
  match request with
  | .ok acct =>
      let s2 := { s1 with account := some acct }
      let s3 := { s2 with message := "Connected to wallet" }
      ⟨[s1, s2, s3], { s3 with loading := false }⟩
  | .error err =>
      let s2 := { s1 with message := err.message }
      ⟨[s1, s2], { s2 with loading := false }⟩

/-- `joinGame` (App.js lines 101 to 114): sets loading and a waiting
message, submits the stake-paying transaction and awaits confirmation;
the `catch` normalizes a user-rejected error to "Transaction cancelled"
and passes any other message through; `finally` clears loading. -/
def joinGame (s : AppState) (tx : Outcome Unit) : OpRun :=
  let s1 := { s with loading := true }
  let s2 := { s1 with message := "Waiting for transaction..." }
  match tx with
  | .ok _ => ⟨[s1, s2], { s2 with loading := false }⟩
  | .error err =>
      let s3 := { s2 with message :=
        if (includes err.message "user rejected") then "Transaction cancelled"
        else err.message }
      ⟨[s1, s2, s3], { s3 with loading := false }⟩

/-- A run of `makeMove`, with the arguments of the `contract.makeMove`
invocations the run performs recorded in `calls`. -/
structure MoveRun where
  trace : List AppState
  final : AppState
  calls : List (Nat × Nat)
deriving Repr

/-- `makeMove(row, col)` (App.js lines 116 to 127): sets loading and a
processing message, submits `contract.makeMove(row, col)` with no check
of the board, and awaits confirmation; the `catch` sets the raw error
message; `finally` clears loading. -/
def makeMove (s : AppState) (row col : Nat) (tx : Outcome Unit) : MoveRun :=
  let s1 := { s with loading := true }
  let s2 := { s1 with message := "Processing your move..." }
  match tx with
  | .ok _ => ⟨[s1, s2], { s2 with loading := false }, [(row, col)]⟩
  | .error err =>
      let s3 := { s2 with message := err.message }
      ⟨[s1, s2, s3], { s3 with loading := false }, [(row, col)]⟩

/-- `addMonadNetwork` (App.js lines 129 to 148): requests the wallet add
the chain; on failure sets the raw error message, otherwise changes no
component state. -/
def addMonadNetwork (s : AppState) (request : Outcome Unit) : AppState :=
  match request with
  | .ok _ => s
  | .error err => { s with message := err.message }

/-- The `init` effect body (App.js lines 18 to 65), with its awaited
steps summed up in one outcome: on success it carries the chain id, the
formatted stake and the already-authorized account list; a throw at any
awaited step lands in the `catch`, which maps a chain-not-supported
error to the network-switch message and any other error to its raw
message.  Contract-handle creation and listener subscription are
embedded separately as `EffectState`. -/
def init (s : AppState) (outcome : Outcome (Int × String × List String))
    (reads : Outcome (List (List Int) × Int × Int)) : AppState :=
  match outcome with
  | .ok (chainId, stake, accounts) =>
      let s1 := if chainId ≠ 1234 then
          { s with message := "Please switch to Monad Testnet in MetaMask" }
        else s
      let s2 := { s1 with stakeAmount := stake }
      match accounts with
      | [] => s2
      | acct :: _ =>
          updateGameState
            { s2 with account := some acct, message := "Connected to wallet" }
            reads
  | .error err =>
      { s with message :=
          if (includes err.message "chain not supported") then
            "Please connect to Monad Testnet"
          else err.message }

/-- The `GameEnded` listener (App.js lines 46 to 50) followed by the
refresh it triggers: sets the draw / won / lost message, comparing the
winner against the `account` value the handler's closure captured, then
runs `updateGameState`. -/
def gameEndedHandler (captured : Option String) (s : AppState)
    (winner : String) (isDraw : Bool)
    (reads : Outcome (List (List Int) × Int × Int)) : AppState :=
  let s1 := { s with message :=
    if isDraw then "Game ended in a draw!"
    else if (some winner = captured) then "You won!" else "You lost!" }
  updateGameState s1 reads

/-- The guard of a board cell's onClick (App.js line 195):
`!loading && cell === 0 && makeMove(i, j)` fires `makeMove` exactly when
loading is false and the cell code is 0 (empty). -/
def cellOnClickFires (loading : Bool) (cell : Cell) : Bool :=
  !loading && decide (cell = Cell.Empty)

/-- One event listener registered on a contract handle, the handle
identified by a numeric id. -/
structure Subscription where
  handle : Nat
  event : String
deriving DecidableEq, Repr

/-- The three events `init` subscribes (App.js lines 37 to 50). -/
def initEvents : List String := ["GameStarted", "MoveMade", "GameEnded"]

/-- The useEffect subscription lifecycle (App.js lines 17 to 69).
`contract` is the React state variable of that name; `subs` the
listeners live on the provider; `cleanup` the pending cleanup closure
returned by the last effect run, `some captured` where `captured` is the
value the closure read from the `contract` variable of the render in
which the effect ran — `setContract` inside `init` re-renders but does
not re-run the effect (its dependency array is `[account]`), so the
closure keeps the previous value. -/
structure EffectState where
  contract : Option Nat
  subs : List Subscription
  cleanup : Option (Option Nat)
deriving DecidableEq, Repr

/-- `contract?.removeAllListeners()` on a captured contract value:
removes every listener of that handle when the value is non-null, and
does nothing when it is null. -/
def runCleanup (st : EffectState) : EffectState :=
  match st.cleanup with
  | none => st
  | some none => { st with cleanup := none }
  | some (some h) =>
      { st with subs := st.subs.filter (fun sub => sub.handle ≠ h)
                cleanup := none }

/-- One run of the effect body: `init` builds a fresh contract handle
`h`, subscribes the three listeners on it and calls `setContract h`; the
cleanup closure it returns captures the `contract` value of the current
render, which is still the one from before this run. -/
def runInit (st : EffectState) (h : Nat) : EffectState :=
  { contract := some h
    subs := st.subs ++ initEvents.map (fun e => ⟨h, e⟩)
    cleanup := some st.contract }

/-- An account change: React runs the pending cleanup, then re-runs the
effect, which initializes with a fresh handle. -/
def accountChange (st : EffectState) (h : Nat) : EffectState :=
  runInit (runCleanup st) h

/-- Component unmount: React runs the pending cleanup. -/
def dispose (st : EffectState) : EffectState :=
  runCleanup st

/-- The effect state of a freshly mounted component, before the first
effect run: no contract, no listeners, no pending cleanup. -/
def mountState : EffectState :=
  { contract := none, subs := [], cleanup := none }

/-- An outcome that is a thrown error. -/
def isErr {α : Type} (o : Outcome α) : Bool :=
  match o with
  | .ok _ => false
  | .error _ => true

/-- Claim C1: a successful refresh sets board, currentTurn and gameState
to the projections of the contract codes, and the projections send phase
codes 0, 1, 2 to Waiting, Playing, Completed, turn codes 0, 1 to X, O,
and cell codes 0, 1, 2 to Empty, X, O — never any other value. -/
theorem refresh_projection_codes :
    (∀ (s : AppState) (brd : List (List Int)) (t st : Int),
      (updateGameState s (Except.ok (brd, t, st))).board =
          brd.map (fun row => row.map (fun cell => projCell cell)) ∧
      (updateGameState s (Except.ok (brd, t, st))).currentTurn = projTurn t ∧
      (updateGameState s (Except.ok (brd, t, st))).gameState = projPhase st) ∧
    projPhase 0 = Phase.Waiting ∧ projPhase 1 = Phase.Playing ∧
    projPhase 2 = Phase.Completed ∧
    projTurn 0 = Turn.X ∧ projTurn 1 = Turn.O ∧
    projCell 0 = Cell.Empty ∧ projCell 1 = Cell.X ∧ projCell 2 = Cell.O := by
  refine ⟨fun s brd t st => ⟨rfl, rfl, rfl⟩, ?_⟩
  decide

/-- Claim C2: when any of the three contract reads of `updateGameState`
fails, the GameView (board, currentTurn, gameState) keeps exactly its
previous value — no partial overwrite — and the failing read's error
message becomes the status message. -/
theorem refresh_failure_preserves_view (s : AppState)
    (a : Outcome (List (List Int))) (b c : Outcome Int)
    (h : isErr a = true ∨ isErr b = true ∨ isErr c = true) :
    gameView (updateGameState s (promiseAll3 a b c)) = gameView s ∧
    ∃ e, promiseAll3 a b c = Except.error e ∧
      (updateGameState s (promiseAll3 a b c)).message = e.message := by
  rcases a with ea | va
  · exact ⟨rfl, ⟨ea, rfl, rfl⟩⟩
  rcases b with eb | vb
  · exact ⟨rfl, ⟨eb, rfl, rfl⟩⟩
  rcases c with ec | vc
  · exact ⟨rfl, ⟨ec, rfl, rfl⟩⟩
  · simp [isErr] at h

/-- Claim C2, at a concrete input: the board read fails with a network
error while the two others succeed. -/
theorem refresh_failure_preserves_view_case :
    gameView (updateGameState initialState (promiseAll3
        (Except.error ⟨"network error"⟩) (Except.ok 0) (Except.ok 0))) =
      gameView initialState ∧
    ∃ e, promiseAll3 (Except.error ⟨"network error"⟩)
        (Except.ok (0 : Int)) (Except.ok (0 : Int)) = Except.error e ∧
      (updateGameState initialState (promiseAll3 (Except.error ⟨"network error"⟩)
        (Except.ok (0 : Int)) (Except.ok (0 : Int)))).message = e.message :=
  refresh_failure_preserves_view initialState
    (Except.error ⟨"network error"⟩) (Except.ok 0) (Except.ok 0) (Or.inl rfl)

/-- Claim C3: during every run of `joinGame` and of `makeMove`, every
intermediate state has loading true, and the state after the `finally`
block has loading false, on the success and on the failure path alike. -/
theorem busy_flag_discipline :
    ∀ (s : AppState) (row col : Nat) (txj txm : Outcome Unit),
      ((joinGame s txj).trace.all (fun t => t.loading)) = true ∧
      (joinGame s txj).final.loading = false ∧
      ((makeMove s row col txm).trace.all (fun t => t.loading)) = true ∧
      (makeMove s row col txm).final.loading = false := by
  intro s row col txj txm
  rcases txj with ej | uj <;> rcases txm with em | um <;>
    simp [joinGame, makeMove]

/-- Claim C4: exactly two error classes are rewritten — a user-rejected
error in `joinGame` becomes "Transaction cancelled" and a
chain-not-supported error in the `init` effect becomes the
network-switch message — while a failure of `connectWallet`,
`updateGameState`, `makeMove` or `addMonadNetwork` surfaces its raw
message unmodified. -/
theorem error_message_classification :
    ∀ (e : JsError) (s : AppState) (row col : Nat)
      (reads : Outcome (List (List Int) × Int × Int)),
      (joinGame s (Except.error e)).final.message =
        (if (includes e.message "user rejected") then "Transaction cancelled"
         else e.message) ∧
      (init s (Except.error e) reads).message =
        (if (includes e.message "chain not supported") then
          "Please connect to Monad Testnet" else e.message) ∧
      (connectWallet s (Except.error e)).final.message = e.message ∧
      (updateGameState s (Except.error e)).message = e.message ∧
      (makeMove s row col (Except.error e)).final.message = e.message ∧
      (addMonadNetwork s (Except.error e)).message = e.message := by
  intro e s row col reads
  exact ⟨rfl, rfl, rfl, rfl, rfl, rfl⟩

/-- Claim C5: neither `joinGame` nor `makeMove` changes board,
currentTurn or gameState at any point of its run, and a successful
`updateGameState` is the only operation that replaces the GameView,
wholesale, with the projections of the contract read. -/
theorem view_replaced_only_by_refresh :
    ∀ (s : AppState) (row col : Nat) (txj txm : Outcome Unit),
      (∀ t ∈ (joinGame s txj).trace, gameView t = gameView s) ∧
      gameView (joinGame s txj).final = gameView s ∧
      (∀ t ∈ (makeMove s row col txm).trace, gameView t = gameView s) ∧
      gameView (makeMove s row col txm).final = gameView s ∧
      (∀ (brd : List (List Int)) (tc sc : Int),
        gameView (updateGameState s (Except.ok (brd, tc, sc))) =
          (brd.map (fun row' => row'.map (fun cell => projCell cell)),
            projTurn tc, projPhase sc)) := by
  intro s row col txj txm
  rcases txj with ej | uj <;> rcases txm with em | um <;>
    refine ⟨?_, rfl, ?_, rfl, fun brd tc sc => rfl⟩ <;>
    simp [joinGame, makeMove, gameView]

/-- The useEffect cleanup `contract?.removeAllListeners()` acts on the
`contract` value captured at the render in which the effect ran: on the
first mount that value is null, so disposing the component removes
nothing and all three listeners of the first initialization survive;
after an account change the same stale capture leaves the listeners of
the current initialization subscribed.  Evaluated at the concrete
scenario: mount with handle 1, then dispose; mount with handle 1, then
the account changes and handle 2 is subscribed; then a second account
change with handle 3. -/
theorem listener_leak_on_cleanup :
    (dispose (runInit mountState 1)).subs =
      [⟨1, "GameStarted"⟩, ⟨1, "MoveMade"⟩, ⟨1, "GameEnded"⟩] ∧
    Subscription.mk 1 "GameStarted" ∈ (accountChange (runInit mountState 1) 2).subs ∧
    Subscription.mk 2 "GameStarted" ∈
      (accountChange (accountChange (runInit mountState 1) 2) 3).subs := by
  decide

/-- Claim C7: the cell click guard fires `makeMove` exactly when loading
is false and the cell is empty, and `makeMove` itself submits
`contract.makeMove(row, col)` unconditionally — one submission on every
run, with no client-side legality check of the board. -/
theorem move_click_guard_and_submit :
    ∀ (loading : Bool) (cell : Cell) (s : AppState) (row col : Nat)
      (tx : Outcome Unit),
      (cellOnClickFires loading cell = true ↔
        loading = false ∧ cell = Cell.Empty) ∧
      (makeMove s row col tx).calls = [(row, col)] := by
  intro loading cell s row col tx
  constructor
  · cases loading <;> cases cell <;> simp [cellOnClickFires]
  · rcases tx with e | u <;> rfl

/-- Claim C8: when the account request of `connectWallet` fails, the
provider's error message is surfaced verbatim and the account (and the
whole GameView) keeps its previous value. -/
theorem connect_failure_frame :
    ∀ (s : AppState) (e : JsError),
      (connectWallet s (Except.error e)).final.message = e.message ∧
      (connectWallet s (Except.error e)).final.account = s.account ∧
      gameView (connectWallet s (Except.error e)).final = gameView s := by
  intro s e
  exact ⟨rfl, rfl, rfl⟩

/-- Claim C9: a GameEnded event with isDraw true sets the status message
to exactly "Game ended in a draw!", and the refresh it triggers sets the
phase to Completed when the contract reports phase code 2. -/
theorem game_ended_draw_message_and_phase :
    ∀ (captured : Option String) (s : AppState) (winner : String)
      (brd : List (List Int)) (t : Int),
      (gameEndedHandler captured s winner true (Except.ok (brd, t, 2))).message =
        "Game ended in a draw!" ∧
      (gameEndedHandler captured s winner true (Except.ok (brd, t, 2))).gameState =
        Phase.Completed := by
  intro captured s winner brd t
  exact ⟨rfl, rfl⟩

/-- Claim C10: the projections are total over all integer codes — any
phase code other than 0 and 1 maps to Completed, any cell code other
than 0 and 1 maps to O, any turn code other than 0 maps to O — and a
successful refresh never touches the status message, so out-of-range
codes are absorbed silently, never reported as an error. -/
theorem projection_totality_absorbs
    (p c t : Int) (hp0 : p ≠ 0) (hp1 : p ≠ 1) (hc0 : c ≠ 0) (hc1 : c ≠ 1)
    (ht0 : t ≠ 0) :
    projPhase p = Phase.Completed ∧ projCell c = Cell.O ∧
    projTurn t = Turn.O ∧
    (∀ (s : AppState) (brd : List (List Int)) (tc sc : Int),
      (updateGameState s (Except.ok (brd, tc, sc))).message = s.message) := by
  refine ⟨?_, ?_, ?_, fun s brd tc sc => rfl⟩ <;>
    simp [projPhase, projCell, projTurn, hp0, hp1, hc0, hc1, ht0]

/-- Claim C10, at concrete out-of-range codes: phase 3, cell 7, turn 2. -/
theorem projection_totality_absorbs_case :
    projPhase 3 = Phase.Completed ∧ projCell 7 = Cell.O ∧
    projTurn 2 = Turn.O ∧
    (∀ (s : AppState) (brd : List (List Int)) (tc sc : Int),
      (updateGameState s (Except.ok (brd, tc, sc))).message = s.message) :=
  projection_totality_absorbs 3 7 2 (by decide) (by decide) (by decide)
    (by decide) (by decide)

end TicTacToe
